import Mathlib

/-!
Verification of `src/random_profiles.py`.

The script holds four static reference lists, generates random user
profiles by uniform draws from them, and serializes the resulting list to
a JSON file with two-space indentation.

Randomness is embedded as an explicit stream `g : Nat → Nat` together
with a position `i`: each primitive draw consumes one stream value and a
draw from a range of size `m` reads the stream value modulo `m`.  The
fallible Python primitives `random.choice` (raises on an empty sequence)
and `random.randint` (raises when the range is empty) are `Option`-valued.
File writing is modelled by returning the file content (and, for the
error-handling claims, by threading an `Except`-valued file-system
action).
-/

namespace RandomProfiles

/-- The fixed list of first names (lines 4-9 of the source). -/
def FIRST_NAMES : List String := [
  "Alice", "Bob", "Charlie", "Diana", "Edward",
  "Fiona", "George", "Hannah", "Ivan", "Julia",
  "Kevin", "Laura", "Michael", "Natalie", "Oscar",
  "Paula", "Quentin", "Rachel", "Steve", "Tina"]

/-- The fixed list of last names (lines 11-16 of the source). -/
def LAST_NAMES : List String := [
  "Smith", "Johnson", "Williams", "Brown", "Jones",
  "Garcia", "Miller", "Davis", "Martinez", "Wilson",
  "Anderson", "Taylor", "Thomas", "Jackson", "White",
  "Harris", "Martin", "Thompson", "Robinson", "Lewis"]

/-- The fixed list of cities (lines 18-23 of the source). -/
def CITIES : List String := [
  "New York", "Los Angeles", "Chicago", "Houston", "Phoenix",
  "Philadelphia", "San Antonio", "San Diego", "Dallas", "San Jose",
  "Austin", "Jacksonville", "Fort Worth", "Columbus", "Charlotte",
  "Indianapolis", "San Francisco", "Seattle", "Denver", "Nashville"]

/-- The fixed list of email domains (line 25 of the source). -/
def DOMAINS : List String :=
  ["gmail.com", "yahoo.com", "outlook.com", "hotmail.com", "example.com"]

/-- A random stream: position `i` holds the raw value consumed by the
`i`-th primitive draw of the run. -/
abbrev Rng := Nat → Nat

/-- Python `random.choice(l)` fed with the raw draw `r`: picks the element
at index `r mod l.length`; on an empty sequence `random.choice` raises
`IndexError`, modelled by `none` (for `l = []`, `r % 0 = r` and the lookup
is out of bounds). -/
def choice {α : Type} (l : List α) (r : Nat) : Option α :=
  l[r % l.length]?

/-- Python `random.randint(a, b)` fed with the raw draw `r`: a value in
`[a, b]` inclusive; raises `ValueError` when `a > b`, modelled by `none`. -/
def randint (a b : Nat) (r : Nat) : Option Nat :=
  if a ≤ b then some (a + r % (b - a + 1)) else none

/-- Python `str.lower()` on one character, for the ASCII range the
reference lists live in: `A`-`Z` maps to `a`-`z`, everything else is
unchanged. -/
def lowerChar (c : Char) : Char :=
  if 65 ≤ c.toNat ∧ c.toNat ≤ 90 then Char.ofNat (c.toNat + 32) else c

/-- Python `str.lower()`: lowercases every character. -/
def lowerString (s : String) : String :=
  String.mk (s.toList.map lowerChar)

/-- One generated profile: the dict built at lines 36-41 of the source,
with its four keys `name`, `email`, `age`, `city` in insertion order. -/
structure Profile where
  name : String
  email : String
  age : Nat
  city : String
deriving Repr, DecidableEq

/-- `generate_profile()` (lines 28-41): six primitive draws consumed in
source order — first name, last name, email number (`randint(1, 999)`),
email domain, age (`randint(18, 75)`), city. -/
def generate_profile (g : Rng) (i : Nat) : Option Profile := do
  let first ← choice FIRST_NAMES (g i)
  let last ← choice LAST_NAMES (g (i + 1))
  let name := first ++ " " ++ last
  let num ← randint 1 999 (g (i + 2))
  let domain ← choice DOMAINS (g (i + 3))
  let email := lowerString first ++ "." ++ lowerString last ++ toString num ++ "@" ++ domain
  let age ← randint 18 75 (g (i + 4))
  let city ← choice CITIES (g (i + 5))
  pure { name := name, email := email, age := age, city := city }

/-- JSON values, restricted to the fragment the script serializes
(strings, non-negative integers, arrays, objects with ordered fields). -/
inductive Json where
  | str : String → Json
  | num : Nat → Json
  | arr : List Json → Json
  | obj : List (String × Json) → Json

/-- `k` spaces, the indentation unit of `json.dump(..., indent=2)`. -/
def spaces (k : Nat) : String :=
  String.mk (List.replicate k ' ')

/-- One hexadecimal digit, lowercase, as produced by Python `json`. -/
def hexDigit (n : Nat) : Char :=
  if n < 10 then Char.ofNat (48 + n) else Char.ofNat (87 + n)

/-- Four-digit lowercase hexadecimal, for `\uXXXX` escapes. -/
def hex4 (n : Nat) : String :=
  String.mk [hexDigit (n / 4096 % 16), hexDigit (n / 256 % 16),
             hexDigit (n / 16 % 16), hexDigit (n % 16)]

/-- Python `json` string escaping with `ensure_ascii=False`: only the
quote, the backslash and control characters are escaped; every other
character (ASCII or not) is emitted as itself. -/
def escapeChar (c : Char) : String :=
  if c = '"' then "\\\""
  else if c = '\\' then "\\\\"
  else if c = '\n' then "\\n"
  else if c = '\t' then "\\t"
  else if c = '\r' then "\\r"
  else if c = '\x08' then "\\b"
  else if c = '\x0c' then "\\f"
  else if c.toNat < 32 then "\\u" ++ hex4 c.toNat
  else String.singleton c

/-- A JSON string literal as Python `json` writes it. -/
def encodeString (s : String) : String :=
  "\"" ++ String.join (s.toList.map escapeChar) ++ "\""

mutual

/-- `json.dump(v, f, indent=2, ensure_ascii=False)` at nesting depth `d`:
empty containers collapse to `[]` / `\x7b\x7d`, non-empty containers put
each item on its own line indented by `2 * (d + 1)` spaces, items joined
by `",\n"`, keys separated from values by `": "`. -/
def renderJson (d : Nat) : Json → String
  | .str s => encodeString s
  | .num n => toString n
  | .arr [] => "[]"
  | .arr (x :: xs) =>
      "[\n" ++ renderArrItems (d + 1) x xs ++ "\n" ++ spaces (2 * d) ++ "]"
  | .obj [] => "\x7b\x7d"
  | .obj (f :: fs) =>
      "\x7b\n" ++ renderObjItems (d + 1) f fs ++ "\n" ++ spaces (2 * d) ++ "\x7d"
termination_by j => sizeOf j
decreasing_by
all_goals simp

/-- The lines of a non-empty JSON array body. -/
def renderArrItems (d : Nat) : Json → List Json → String
  | x, [] => spaces (2 * d) ++ renderJson d x
  | x, y :: ys => spaces (2 * d) ++ renderJson d x ++ ",\n" ++ renderArrItems d y ys
termination_by x xs => 1 + sizeOf x + sizeOf xs
decreasing_by
all_goals simp
all_goals omega

/-- The lines of a non-empty JSON object body. -/
def renderObjItems (d : Nat) : String × Json → List (String × Json) → String
  | (k, v), [] => spaces (2 * d) ++ encodeString k ++ ": " ++ renderJson d v
  | (k, v), f :: fs =>
      spaces (2 * d) ++ encodeString k ++ ": " ++ renderJson d v ++ ",\n" ++
        renderObjItems d f fs
termination_by f fs => 1 + sizeOf f + sizeOf fs
decreasing_by
all_goals simp
all_goals omega

end

/-- The JSON object a profile dict serializes to: exactly the four keys
`name`, `email`, `age`, `city`, in dict insertion order (lines 36-41). -/
def profileToJson (p : Profile) : Json :=
  .obj [("name", .str p.name), ("email", .str p.email),
        ("age", .num p.age), ("city", .str p.city)]

/-- The JSON array `json.dump` receives: the profiles in generation order. -/
def profilesJson (ps : List Profile) : Json :=
  .arr (ps.map profileToJson)

/-- Reading one profile back from its parse tree: succeeds exactly on an
object with the four expected keys in order and the expected value kinds. -/
def profileOfJson : Json → Option Profile
  | .obj [("name", .str n), ("email", .str e), ("age", .num a), ("city", .str c)] =>
      some { name := n, email := e, age := a, city := c }
  | _ => none

/-- Reading each element of a JSON array back as a profile. -/
def decodeItems : List Json → Option (List Profile)
  | [] => some []
  | x :: xs => do
      let p ← profileOfJson x
      let ps ← decodeItems xs
      pure (p :: ps)

/-- Reading a profile list back from the parse tree of the written file. -/
def decodeProfiles : Json → Option (List Profile)
  | .arr xs => decodeItems xs
  | _ => none

/-- A completed file write: destination path and full content. -/
structure FileWrite where
  path : String
  content : String
deriving Repr, DecidableEq

/-- The list comprehension `[generate_profile() for _ in range(n)]` for a
non-negative count, threading the random stream (six draws per profile). -/
def gen_profiles (g : Rng) (i : Nat) : Nat → Option (List Profile)
  | 0 => some []
  | k + 1 => do
      let p ← generate_profile g i
      let ps ← gen_profiles g (i + 6) k
      pure (p :: ps)

/-- `save_profiles(n, filename)` (lines 44-49): builds the list via
`range(n)` — which is empty for `n ≤ 0`, hence the `Int.toNat` count —
then writes the pretty-printed JSON array in one operation and returns
the list. -/
def save_profiles (g : Rng) (i : Nat) (n : Int) (filename : String) :
    Option (List Profile × FileWrite) := do
  let ps ← gen_profiles g i n.toNat
  pure (ps, { path := filename, content := renderJson 0 (profilesJson ps) })

/-- The `__main__` block (lines 52-54): `save_profiles(10, "profiles.json")`
followed by one `print`; result is the save result paired with the lines
written to standard output. -/
def mainProg (g : Rng) : Option ((List Profile × FileWrite) × List String) := do
  let r ← save_profiles g 0 10 "profiles.json"
  pure (r, ["10 profiles saved to profiles.json"])

/-- `save_profiles` over a fallible file system `fs` (path, content ↦
success or an I/O error): the script has no handler, so a failure of the
write is returned unchanged. -/
def save_profilesE (g : Rng) (i : Nat) (n : Int) (filename : String)
    (fs : String → String → Except String Unit) : Except String (List Profile) :=
  match save_profiles g i n filename with
  | none => .error "unreachable: generate_profile failed"
  | some (ps, w) => do
      fs w.path w.content
      pure ps

/-- The `__main__` block over a fallible file system: the `print` runs
only when the write succeeded. -/
def mainProgE (g : Rng) (fs : String → String → Except String Unit) :
    Except String (List String) := do
  let _ ← save_profilesE g 0 10 "profiles.json" fs
  pure ["10 profiles saved to profiles.json"]

/-- Process exit status of a Python run: an uncaught exception terminates
the interpreter with status 1, a normal run with status 0. -/
def exitCode {α : Type} : Except String α → Nat
  | .ok _ => 0
  | .error _ => 1

/-- The profile of one `generate_profile()` call made explicit: each field
written directly in terms of the six raw draws `g i, …, g (i + 5)`,
consumed in the order first name, last name, email number, email domain,
age, city. -/
def profileOfDraws (g : Rng) (i : Nat) : Profile :=
  { name := FIRST_NAMES.getD (g i % FIRST_NAMES.length) "" ++ " " ++
      LAST_NAMES.getD (g (i + 1) % LAST_NAMES.length) ""
    email := lowerString (FIRST_NAMES.getD (g i % FIRST_NAMES.length) "") ++ "." ++
      lowerString (LAST_NAMES.getD (g (i + 1) % LAST_NAMES.length) "") ++
      toString (1 + g (i + 2) % 999) ++ "@" ++
      DOMAINS.getD (g (i + 3) % DOMAINS.length) ""
    age := 18 + g (i + 4) % 58
    city := CITIES.getD (g (i + 5) % CITIES.length) "" }

/-- A lowercase ASCII letter, the character class `[a-z]` of the spec. -/
def isLowerAlpha (c : Char) : Bool :=
  97 ≤ c.toNat && c.toNat ≤ 122

/-- The spec's email pattern, transcribed from its words: the regular
expression `[a-z]+\.[a-z]+[1-9][0-9]{0,2}@(gmail.com|yahoo.com|outlook.com|hotmail.com|example.com)`
anchored at both ends, read — as the spec itself glosses it — as
`{first_lower}.{last_lower}{n}@{domain}` with `n` an integer in `[1, 999]`
(whose decimal form is exactly `[1-9][0-9]{0,2}`) and the domain one of
the five alternatives, i.e. a member of `DOMAINS`. -/
def specEmailPattern (s : String) : Prop :=
  ∃ a b num dom, a ≠ "" ∧ b ≠ "" ∧
    a.toList.all isLowerAlpha = true ∧ b.toList.all isLowerAlpha = true ∧
    1 ≤ num ∧ num ≤ 999 ∧ dom ∈ DOMAINS ∧
    s = a ++ "." ++ b ++ toString num ++ "@" ++ dom

/-- On a non-empty list, `choice` returns the element at the reduced
index, written via `getD` with an irrelevant default. -/
theorem choice_eq_getD {α : Type} (l : List α) (r : Nat) (h : l ≠ []) (d : α) :
    choice l r = some (l.getD (r % l.length) d) := by
  have hlen : 0 < l.length := List.length_pos.mpr h
  have hr : r % l.length < l.length := Nat.mod_lt _ hlen
  simp [choice, List.getElem?_eq_getElem hr, List.getD_eq_getElem?_getD]

/-- The element `choice` picks is a member of the list. -/
theorem getD_mod_mem {α : Type} (l : List α) (r : Nat) (d : α) (h : l ≠ []) :
    l.getD (r % l.length) d ∈ l := by
  have hlen : 0 < l.length := List.length_pos.mpr h
  have hr : r % l.length < l.length := Nat.mod_lt _ hlen
  simp [List.getD_eq_getElem?_getD, List.getElem?_eq_getElem hr]

/-- `randint` on a non-empty range, made explicit. -/
theorem randint_eq (a b r : Nat) (h : a ≤ b) :
    randint a b r = some (a + r % (b - a + 1)) := by
  simp [randint, h]

/-- One `generate_profile()` call, fully evaluated: it succeeds and its
result is the profile read off the six raw draws in source order. -/
theorem generate_profile_eq (g : Rng) (i : Nat) :
    generate_profile g i = some (profileOfDraws g i) := by
  have h1 := choice_eq_getD FIRST_NAMES (g i) (by simp [FIRST_NAMES]) ""
  have h2 := choice_eq_getD LAST_NAMES (g (i + 1)) (by simp [LAST_NAMES]) ""
  have h3 := randint_eq 1 999 (g (i + 2)) (by omega)
  have h4 := choice_eq_getD DOMAINS (g (i + 3)) (by simp [DOMAINS]) ""
  have h5 := randint_eq 18 75 (g (i + 4)) (by omega)
  have h6 := choice_eq_getD CITIES (g (i + 5)) (by simp [CITIES]) ""
  simp [generate_profile, h1, h2, h3, h4, h5, h6, profileOfDraws]

/-- The comprehension always succeeds and yields exactly `k` profiles. -/
theorem gen_profiles_length (g : Rng) (i k : Nat) :
    ∃ ps, gen_profiles g i k = some ps ∧ ps.length = k := by
  induction k generalizing i with
  | zero => exact ⟨[], rfl, rfl⟩
  | succ k ih =>
      obtain ⟨ps, hps, hlen⟩ := ih (i + 6)
      exact ⟨profileOfDraws g i :: ps,
        by simp [gen_profiles, generate_profile_eq, hps], by simp [hlen]⟩

/-- Decoding inverts the profile-to-JSON-object translation. -/
theorem profileOfJson_toJson (p : Profile) :
    profileOfJson (profileToJson p) = some p := rfl

/-- Decoding the written array recovers the profile list. -/
theorem decode_profilesJson (ps : List Profile) :
    decodeProfiles (profilesJson ps) = some ps := by
  induction ps with
  | nil => rfl
  | cons p t ih =>
      simp only [decodeProfiles, profilesJson, List.map_cons] at *
      simp [decodeItems, profileOfJson_toJson, ih]

/-- C8: `generate_profile()` has no error conditions: the four reference
lists are non-empty by construction, so every draw succeeds and for every
state of the random source a profile is returned. -/
theorem generate_profile_total (g : Rng) (i : Nat) :
    (FIRST_NAMES ≠ [] ∧ LAST_NAMES ≠ [] ∧ CITIES ≠ [] ∧ DOMAINS ≠ []) ∧
    ∃ p, generate_profile g i = some p :=
  ⟨⟨by simp [FIRST_NAMES], by simp [LAST_NAMES], by simp [CITIES], by simp [DOMAINS]⟩,
   profileOfDraws g i, generate_profile_eq g i⟩

/-- C2: every generated profile has an age in [18, 75], a city from the
fixed 20-element city list, and a name of the form "F L" with F from the
20-element first-name list and L from the 20-element last-name list. -/
theorem generate_profile_field_ranges (g : Rng) (i : Nat) (p : Profile)
    (h : generate_profile g i = some p) :
    FIRST_NAMES.length = 20 ∧ LAST_NAMES.length = 20 ∧ CITIES.length = 20 ∧
    18 ≤ p.age ∧ p.age ≤ 75 ∧ p.city ∈ CITIES ∧
    ∃ F ∈ FIRST_NAMES, ∃ L ∈ LAST_NAMES, p.name = F ++ " " ++ L := by
  rw [generate_profile_eq] at h
  obtain rfl : profileOfDraws g i = p := Option.some.inj h
  refine ⟨rfl, rfl, rfl, Nat.le_add_right 18 _, ?_, ?_, ?_⟩
  · have hm : g (i + 4) % 58 < 58 := Nat.mod_lt _ (by omega)
    show 18 + g (i + 4) % 58 ≤ 75
    omega
  · exact getD_mod_mem CITIES _ "" (by simp [CITIES])
  · exact ⟨_, getD_mod_mem FIRST_NAMES _ "" (by simp [FIRST_NAMES]), _,
      getD_mod_mem LAST_NAMES _ "" (by simp [LAST_NAMES]), rfl⟩

/-- Witness for C2 at the constant-zero stream. -/
theorem generate_profile_field_ranges_witness :
    generate_profile (fun _ => 0) 0 = some (profileOfDraws (fun _ => 0) 0) ∧
    (FIRST_NAMES.length = 20 ∧ LAST_NAMES.length = 20 ∧ CITIES.length = 20 ∧
     18 ≤ (profileOfDraws (fun _ => 0) 0).age ∧
     (profileOfDraws (fun _ => 0) 0).age ≤ 75 ∧
     (profileOfDraws (fun _ => 0) 0).city ∈ CITIES ∧
     ∃ F ∈ FIRST_NAMES, ∃ L ∈ LAST_NAMES,
       (profileOfDraws (fun _ => 0) 0).name = F ++ " " ++ L) :=
  ⟨by decide,
   generate_profile_field_ranges (fun _ => 0) 0 (profileOfDraws (fun _ => 0) 0) (by decide)⟩

/-- C6: under a fixed random-source state, two runs of
`save_profiles(1, f)` agree, and the single returned profile is exactly
the one read off the seeded draws in the fixed order first name, last
name, email number, email domain, age, city. -/
theorem save_profiles_seed_deterministic (g : Rng) (i : Nat) (f : String) :
    save_profiles g i 1 f = save_profiles g i 1 f ∧
    save_profiles g i 1 f =
      some ([profileOfDraws g i],
        { path := f, content := renderJson 0 (profilesJson [profileOfDraws g i]) }) := by
  refine ⟨rfl, ?_⟩
  simp [save_profiles, gen_profiles, generate_profile_eq]

/-- Every first name lowercases to a non-empty all-lowercase-ASCII word. -/
theorem first_names_lower_ok :
    FIRST_NAMES.all (fun s =>
      (lowerString s != "") && (lowerString s).toList.all isLowerAlpha) = true := by
  decide

/-- Every last name lowercases to a non-empty all-lowercase-ASCII word. -/
theorem last_names_lower_ok :
    LAST_NAMES.all (fun s =>
      (lowerString s != "") && (lowerString s).toList.all isLowerAlpha) = true := by
  decide

/-- C3: every generated email matches the spec's pattern
`[a-z]+.[a-z]+[1-9][0-9]x2at(the five domains)` — lowercase word, period,
lowercase word, a number in [1, 999], at-sign, domain — and the part
before the digits is the lowercase first and last name of that same
profile joined by a period. -/
theorem generate_profile_email_pattern (g : Rng) (i : Nat) (p : Profile)
    (h : generate_profile g i = some p) :
    specEmailPattern p.email ∧
    ∃ F ∈ FIRST_NAMES, ∃ L ∈ LAST_NAMES,
      p.name = F ++ " " ++ L ∧
      ∃ num dom, 1 ≤ num ∧ num ≤ 999 ∧ dom ∈ DOMAINS ∧
        p.email = lowerString F ++ "." ++ lowerString L ++ toString num ++ "@" ++ dom := by
  rw [generate_profile_eq] at h
  obtain rfl : profileOfDraws g i = p := Option.some.inj h
  have hFmem : FIRST_NAMES.getD (g i % FIRST_NAMES.length) "" ∈ FIRST_NAMES :=
    getD_mod_mem _ _ _ (by simp [FIRST_NAMES])
  have hLmem : LAST_NAMES.getD (g (i + 1) % LAST_NAMES.length) "" ∈ LAST_NAMES :=
    getD_mod_mem _ _ _ (by simp [LAST_NAMES])
  have hDmem : DOMAINS.getD (g (i + 3) % DOMAINS.length) "" ∈ DOMAINS :=
    getD_mod_mem _ _ _ (by simp [DOMAINS])
  have hFok := List.all_eq_true.mp first_names_lower_ok _ hFmem
  have hLok := List.all_eq_true.mp last_names_lower_ok _ hLmem
  rw [Bool.and_eq_true] at hFok hLok
  have hnum1 : 1 ≤ 1 + g (i + 2) % 999 := Nat.le_add_right 1 _
  have hnum2 : 1 + g (i + 2) % 999 ≤ 999 := by
    have : g (i + 2) % 999 < 999 := Nat.mod_lt _ (by omega)
    omega
  refine ⟨?_, ?_⟩
  · exact ⟨lowerString (FIRST_NAMES.getD (g i % FIRST_NAMES.length) ""),
      lowerString (LAST_NAMES.getD (g (i + 1) % LAST_NAMES.length) ""),
      1 + g (i + 2) % 999, DOMAINS.getD (g (i + 3) % DOMAINS.length) "",
      bne_iff_ne.mp hFok.1, bne_iff_ne.mp hLok.1, hFok.2, hLok.2,
      hnum1, hnum2, hDmem, rfl⟩
  · exact ⟨_, hFmem, _, hLmem, rfl, 1 + g (i + 2) % 999,
      DOMAINS.getD (g (i + 3) % DOMAINS.length) "", hnum1, hnum2, hDmem, rfl⟩

/-- Witness for C3 at the constant-zero stream. -/
theorem generate_profile_email_pattern_witness :
    generate_profile (fun _ => 0) 0 = some (profileOfDraws (fun _ => 0) 0) ∧
    (specEmailPattern (profileOfDraws (fun _ => 0) 0).email ∧
     ∃ F ∈ FIRST_NAMES, ∃ L ∈ LAST_NAMES,
       (profileOfDraws (fun _ => 0) 0).name = F ++ " " ++ L ∧
       ∃ num dom, 1 ≤ num ∧ num ≤ 999 ∧ dom ∈ DOMAINS ∧
         (profileOfDraws (fun _ => 0) 0).email =
           lowerString F ++ "." ++ lowerString L ++ toString num ++ "@" ++ dom) :=
  ⟨by decide,
   generate_profile_email_pattern (fun _ => 0) 0 (profileOfDraws (fun _ => 0) 0) (by decide)⟩

/-- C1: for every n ≥ 0, `save_profiles(n, f)` returns exactly n profiles
and writes a JSON array of exactly n objects; at n = 0 the returned
sequence is empty and the file content is the empty JSON array. -/
theorem save_profiles_count (g : Rng) (i : Nat) (n : Int) (f : String) (h : 0 ≤ n) :
    ∃ ps w, save_profiles g i n f = some (ps, w) ∧
      (ps.length : Int) = n ∧
      w.content = renderJson 0 (Json.arr (ps.map profileToJson)) ∧
      ((ps.map profileToJson).length : Int) = n ∧
      (n = 0 → ps = [] ∧ w.content = "[]") := by
  obtain ⟨ps, hps, hlen⟩ := gen_profiles_length g i n.toNat
  have hcast : (ps.length : Int) = n := by rw [hlen]; exact Int.toNat_of_nonneg h
  refine ⟨ps, ⟨f, renderJson 0 (profilesJson ps)⟩, by simp [save_profiles, hps],
    hcast, rfl, by simpa using hcast, ?_⟩
  intro hn
  subst hn
  have h0 : ps = [] := List.length_eq_zero.mp (by simpa using hlen)
  subst h0
  exact ⟨rfl, by simp [profilesJson, renderJson]⟩

/-- Witness for C1 at n = 0. -/
theorem save_profiles_count_witness :
    (0 : Int) ≤ 0 ∧
    ∃ ps w, save_profiles (fun _ => 0) 0 0 "out.json" = some (ps, w) ∧
      (ps.length : Int) = 0 ∧
      w.content = renderJson 0 (Json.arr (ps.map profileToJson)) ∧
      ((ps.map profileToJson).length : Int) = 0 ∧
      ((0 : Int) = 0 → ps = [] ∧ w.content = "[]") :=
  ⟨le_refl 0, save_profiles_count (fun _ => 0) 0 0 "out.json" (le_refl 0)⟩

/-- C10: a negative count is not a range error: `range(n)` is empty for
negative `n`, so the empty sequence is returned and the empty JSON array
is written. -/
theorem save_profiles_negative_count (g : Rng) (i : Nat) (n : Int) (f : String)
    (h : n < 0) :
    save_profiles g i n f = some ([], { path := f, content := "[]" }) := by
  have h0 : n.toNat = 0 := Int.toNat_of_nonpos h.le
  simp [save_profiles, h0, gen_profiles, profilesJson, renderJson]

/-- Witness for C10 at n = -1. -/
theorem save_profiles_negative_count_witness :
    save_profiles (fun _ => 0) 0 (-1) "out.json" =
      some ([], { path := "out.json", content := "[]" }) :=
  save_profiles_negative_count (fun _ => 0) 0 (-1) "out.json" (by decide)

/-- C4: round-trip — reading the written JSON array back yields a
sequence structurally identical to the one `save_profiles` returned. -/
theorem save_profiles_roundtrip (g : Rng) (i : Nat) (n : Int) (f : String)
    (ps : List Profile) (w : FileWrite)
    (h : save_profiles g i n f = some (ps, w)) :
    w.content = renderJson 0 (profilesJson ps) ∧
    decodeProfiles (profilesJson ps) = some ps := by
  cases hg : gen_profiles g i n.toNat with
  | none => simp [save_profiles, hg] at h
  | some qs =>
      simp [save_profiles, hg] at h
      obtain ⟨rfl, rfl⟩ := h
      exact ⟨rfl, decode_profilesJson qs⟩

/-- Witness for C4 at n = 1 on the constant-zero stream. -/
theorem save_profiles_roundtrip_witness :
    save_profiles (fun _ => 0) 0 1 "out.json" =
      some ([profileOfDraws (fun _ => 0) 0],
        { path := "out.json",
          content := renderJson 0 (profilesJson [profileOfDraws (fun _ => 0) 0]) }) ∧
    (FileWrite.content
        { path := "out.json",
          content := renderJson 0 (profilesJson [profileOfDraws (fun _ => 0) 0]) } =
      renderJson 0 (profilesJson [profileOfDraws (fun _ => 0) 0]) ∧
     decodeProfiles (profilesJson [profileOfDraws (fun _ => 0) 0]) =
      some [profileOfDraws (fun _ => 0) 0]) :=
  ⟨rfl, save_profiles_roundtrip (fun _ => 0) 0 1 "out.json" _ _ rfl⟩

/-- Closing a pretty-printed top-level container: the depth-0 indent
before the closing bracket is empty. -/
theorem close_top_level (s : String) : s ++ "\n" ++ spaces 0 ++ "]" = s ++ "\n]" := by
  rw [show spaces 0 = "" from rfl, String.append_empty, String.append_assoc]
  exact congrArg (fun t => s ++ t) (by decide)

/-- C5: the written file is the JSON array of the profile objects in
generation order, each object carrying exactly the keys name (string),
email (string), age (number), city (string) in that key order; the empty
array renders as the two-character empty array and a non-empty one in the
multi-line two-space-indented pretty-printed form. -/
theorem save_profiles_file_format (g : Rng) (i : Nat) (n : Int) (f : String)
    (ps : List Profile) (w : FileWrite)
    (h : save_profiles g i n f = some (ps, w)) :
    w.path = f ∧
    w.content = renderJson 0 (Json.arr (ps.map profileToJson)) ∧
    (∀ p ∈ ps, profileToJson p =
      Json.obj [("name", Json.str p.name), ("email", Json.str p.email),
                ("age", Json.num p.age), ("city", Json.str p.city)]) ∧
    ((ps = [] ∧ w.content = "[]") ∨
      ∃ mid, w.content = "[\n" ++ mid ++ "\n]") := by
  cases hg : gen_profiles g i n.toNat with
  | none => simp [save_profiles, hg] at h
  | some qs =>
      simp [save_profiles, hg] at h
      obtain ⟨rfl, rfl⟩ := h
      refine ⟨rfl, rfl, fun p _ => rfl, ?_⟩
      cases qs with
      | nil => exact Or.inl ⟨rfl, by simp [profilesJson, renderJson]⟩
      | cons p t =>
          refine Or.inr ⟨renderArrItems 1 (profileToJson p) (t.map profileToJson), ?_⟩
          have hr : renderJson 0 (profilesJson (p :: t)) =
              "[\n" ++ renderArrItems 1 (profileToJson p) (t.map profileToJson) ++
                "\n" ++ spaces 0 ++ "]" := by
            simp [profilesJson, renderJson]
          show renderJson 0 (profilesJson (p :: t)) = _
          rw [hr]
          exact close_top_level _

/-- Witness for C5 at n = 0. -/
theorem save_profiles_file_format_witness :
    save_profiles (fun _ => 0) 0 0 "out.json" =
      some ([], { path := "out.json", content := renderJson 0 (profilesJson []) }) ∧
    (FileWrite.path { path := "out.json", content := renderJson 0 (profilesJson []) } =
        "out.json" ∧
     FileWrite.content { path := "out.json", content := renderJson 0 (profilesJson []) } =
        renderJson 0 (Json.arr (([] : List Profile).map profileToJson)) ∧
     (∀ p ∈ ([] : List Profile), profileToJson p =
        Json.obj [("name", Json.str p.name), ("email", Json.str p.email),
                  ("age", Json.num p.age), ("city", Json.str p.city)]) ∧
     ((([] : List Profile) = [] ∧
        FileWrite.content { path := "out.json", content := renderJson 0 (profilesJson []) } = "[]") ∨
       ∃ mid,
        FileWrite.content { path := "out.json", content := renderJson 0 (profilesJson []) } =
          "[\n" ++ mid ++ "\n]")) :=
  ⟨rfl, save_profiles_file_format (fun _ => 0) 0 0 "out.json" _ _ rfl⟩

/-- C9: a run with no arguments generates exactly 10 profiles, writes
them to "profiles.json", and prints exactly one confirmation line. -/
theorem main_default_run (g : Rng) :
    ∃ ps w, mainProg g = some ((ps, w), ["10 profiles saved to profiles.json"]) ∧
      ps.length = 10 ∧ w.path = "profiles.json" ∧
      (["10 profiles saved to profiles.json"] : List String).length = 1 := by
  obtain ⟨ps, hps, hlen⟩ := gen_profiles_length g 0 10
  refine ⟨ps, ⟨"profiles.json", renderJson 0 (profilesJson ps)⟩, ?_, by simpa using hlen,
    rfl, rfl⟩
  simp [mainProg, save_profiles, hps]

/-- C7: an unwritable destination makes the write fail; the error is not
caught anywhere, `save_profiles` propagates it unchanged, the entry point
prints nothing and the process exits with a non-zero status. -/
theorem write_error_propagates (g : Rng) (e : String)
    (fs : String → String → Except String Unit)
    (h : ∀ p c, fs p c = .error e) :
    save_profilesE g 0 10 "profiles.json" fs = .error e ∧
    mainProgE g fs = .error e ∧
    exitCode (mainProgE g fs) = 1 := by
  obtain ⟨ps, hps, _⟩ := gen_profiles_length g 0 10
  have hs : save_profilesE g 0 10 "profiles.json" fs = .error e := by
    simp [save_profilesE, save_profiles, hps, h]
  exact ⟨hs, by simp [mainProgE, hs], by simp [exitCode, mainProgE, hs]⟩

/-- Witness for C7 with a file system refusing every write. -/
theorem write_error_propagates_witness :
    save_profilesE (fun _ => 0) 0 10 "profiles.json"
      (fun _ _ => Except.error "EACCES") = Except.error "EACCES" ∧
    mainProgE (fun _ => 0) (fun _ _ => Except.error "EACCES") = Except.error "EACCES" ∧
    exitCode (mainProgE (fun _ => 0) (fun _ _ => Except.error "EACCES")) = 1 :=
  write_error_propagates (fun _ => 0) "EACCES"
    (fun _ _ => Except.error "EACCES") (fun _ _ => rfl)

end RandomProfiles
